import Mathlib

/-!
Verification of `amqpdispatcher/dispatcher_common.py`.

The Python module orchestrates message consumption: a per-message dispatch
task (`consumption_coroutine`), per-consumer-spec setup
(`create_consumption_task`, gathered by `create_begin_consumption_task`),
queue topology declaration (`create_queue`, `bind_queue`,
`create_and_bind_queues`) and dynamic handler loading
(`load_module_object`).

The embedding below mirrors that module.  Effectful calls (pool get/put,
wait-group add/done, handler consume/shutdown, proxy ack/reject, logging)
are recorded as events in a trace; the environment's choices (whether the
handler's `consume` raises, whether the proxy has already responded,
whether ack/shutdown/reject raise) are collected in a `Behavior` record so
that theorems can quantify over every environment behaviour.  Errors are
identified by natural numbers.  Fallible operations return `Except`.
-/

set_option maxHeartbeats 1000000

/-- Observable effects performed by one run of `consumption_coroutine`:
`poolGet`/`poolPut` are `consumer_pool.get()`/`consumer_pool.put(...)`,
`wgAdd`/`wgDone` are `wait_group.add()`/`wait_group.done()`,
`consume`/`shutdown` are the handler calls, `ack`/`reject` are the proxy
calls, and `logErr` is `logger.error`. -/
inductive Ev where
  | poolGet
  | wgAdd
  | consume
  | ack
  | shutdown (e : Nat)
  | reject (requeue : Bool)
  | logErr
  | poolPut
  | wgDone
  deriving DecidableEq

/-- Environment behaviour for one run of `consumption_coroutine`:
whether `consumer_instance.consume` raises (and which error), the value of
`amqp_proxy.has_responded_to_message` right after `consume` returns or
raises, whether `amqp_proxy.ack()` raises, the proxy response flag after a
failed ack, and whether `shutdown` / `reject` raise. -/
structure Behavior where
  consumeErr : Option Nat
  respondedAfterConsume : Bool
  ackErr : Option Nat
  respondedAfterFailedAck : Bool
  shutdownErr : Option Nat
  rejectErr : Option Nat
  deriving DecidableEq

/-- Number of occurrences of an event in a trace. -/
def countEv (x : Ev) : List Ev → Nat
  | [] => 0
  | y :: l => (if y = x then 1 else 0) + countEv x l

/-- The `try` body of `consumption_coroutine` (lines 184-190):
`wait_group.add()`, `await consumer_instance.consume(...)`, and, when the
proxy has not responded, `await amqp_proxy.ack()`.  Returns the events
performed and the exception caught by the `except` clause, if any. -/
def tryBody (b : Behavior) : List Ev × Option Nat :=
  match b.consumeErr with
  | some e => ([Ev.wgAdd, Ev.consume], some e)
  | none =>
    if b.respondedAfterConsume then
      ([Ev.wgAdd, Ev.consume], none)
    else
      match b.ackErr with
      | some e => ([Ev.wgAdd, Ev.consume, Ev.ack], some e)
      | none => ([Ev.wgAdd, Ev.consume, Ev.ack], none)

/-- Value of `amqp_proxy.has_responded_to_message` re-read inside the
`except` block: when `consume` raised nothing has touched the proxy since
the raise, otherwise the `except` block was entered by a failing `ack`. -/
def respondedAtCatch (b : Behavior) : Bool :=
  match b.consumeErr with
  | some _ => b.respondedAfterConsume
  | none => b.respondedAfterFailedAck

/-- The `except Exception as e` block of `consumption_coroutine`
(lines 192-200): log, `await consumer_instance.shutdown(e)` (an exception
raised by `shutdown` escapes the block), then, if the proxy has not
responded, try `await amqp_proxy.reject(requeue=True)` and swallow (log)
any exception it raises.  Returns the events performed and the exception
escaping the block, if any. -/
def exceptBlock (b : Behavior) (e : Nat) : List Ev × Option Nat :=
  match b.shutdownErr with
  | some e2 => ([Ev.logErr, Ev.shutdown e], some e2)
  | none =>
    if respondedAtCatch b then
      ([Ev.logErr, Ev.shutdown e], none)
    else
      match b.rejectErr with
      | some _ => ([Ev.logErr, Ev.shutdown e, Ev.reject true, Ev.logErr], none)
      | none => ([Ev.logErr, Ev.shutdown e, Ev.reject true], none)

/-- One run of `consumption_coroutine` (lines 173-203):
`consumer_pool.get()`, then the `try`/`except` above, then the `finally`
block `consumer_pool.put(...)`; `wait_group.done()`.  Returns the event
trace and the exception escaping the coroutine, if any. -/
def consumption_coroutine (b : Behavior) : List Ev × Option Nat :=
  match tryBody b with
  | (t, none) => (Ev.poolGet :: t ++ [Ev.poolPut, Ev.wgDone], none)
  | (t, some e) =>
    (Ev.poolGet :: (t ++ (exceptBlock b e).1) ++ [Ev.poolPut, Ev.wgDone],
     (exceptBlock b e).2)

/-- Net effect of one event on the number of instances held by the
consumer pool. -/
def poolEffect : Ev → Int
  | Ev.poolGet => -1
  | Ev.poolPut => 1
  | _ => 0

/-- A dynamically loaded handler class (`Type[DispatcherConsumer]`). -/
structure HandlerClass where
  className : String
  deriving DecidableEq

/-- Python `str.split(":")` on the character list of a string (single
character separator, no maxsplit): always returns `count ':' + 1`
pieces. -/
def splitOnColon : List Char → List (List Char)
  | [] => [[]]
  | c :: rest =>
    if c = ':' then
      [] :: splitOnColon rest
    else
      match splitOnColon rest with
      | [] => [[c]]
      | p :: ps => (c :: p) :: ps

/-- Number of colons in a character list. -/
def colonCount : List Char → Nat
  | [] => 0
  | c :: rest => (if c = ':' then 1 else 0) + colonCount rest

/-- `load_module_object` (lines 167-170): `module_name, obj_name =
module_object_str.split(":")` raises `ValueError` unless the split has
exactly two pieces; then `importlib.import_module` and `getattr`, both of
which may raise, are modelled by the abstract resolver `ra` mapping a
module name and an object name to the attribute found, if any. -/
def load_module_object (ra : String → String → Option HandlerClass)
    (module_object_str : String) : Except Unit HandlerClass :=
  match splitOnColon module_object_str.data with
  | [m, o] =>
    match ra (String.mk m) (String.mk o) with
    | some cls => Except.ok cls
    | none => Except.error ()
  | _ => Except.error ()

/-- One consumer entry of the `consumers` section of the YAML config:
`queue`, `consumer`, `prefetch_count`, `consumer_count`; `none` models an
omitted key. -/
structure ConsumerSpec where
  queue : String
  consumer : Option String
  prefetch_count : Option Nat
  consumer_count : Option Nat
  deriving DecidableEq

/-- The state set up by `create_consumption_task` before it starts
iterating deliveries: the target queue, the consume channel's qos
(`set_qos(prefetch_count=...)`), the consumer pool's capacity
(`asyncio.Queue(maxsize=consumer_count)`) and its initial contents (one
`consumer_class()` instance per loop iteration).  Channel opening and the
consumer-tag derivation are broker I/O and are not modelled. -/
structure DispatchSetup where
  queue_name : String
  consume_qos : Nat
  pool_capacity : Nat
  pool : List HandlerClass
  deriving DecidableEq

/-- `create_consumption_task` (lines 206-251) up to the delivery loop:
reads the spec with defaults (`consumer.get("prefetch_count", 1)`,
`consumer.get("consumer", "")`, `consumer.get("consumer_count", 1)`),
loads the handler class via `load_consumer` = `load_module_object`
(a load failure raises, modelled as `Except.error`), sets the qos and
fills the pool with `consumer_count` instances. -/
def create_consumption_task (ra : String → String → Option HandlerClass)
    (spec : ConsumerSpec) : Except Unit DispatchSetup :=
  match load_module_object ra (spec.consumer.getD "") with
  | Except.error e => Except.error e
  | Except.ok cls =>
    Except.ok
      ⟨spec.queue, spec.prefetch_count.getD 1, spec.consumer_count.getD 1,
       List.replicate (spec.consumer_count.getD 1) cls⟩

/-- Outcome of `begin_consumption_task`: the per-spec outcomes of the
independently running `create_consumption_task` coroutines, and the first
exception, which `asyncio.gather` propagates to its awaiter. -/
structure GatherResult where
  results : List (Except Unit DispatchSetup)
  propagated : Option Unit

/-- `begin_consumption_task` built by `create_begin_consumption_task`
(lines 290-302): one `create_consumption_task` per consumer spec, awaited
with `asyncio.gather`.  `gather` (with `return_exceptions=False`) runs
every coroutine as an independent task and does not cancel the siblings of
a failing one, so each spec's outcome is computed from that spec alone;
the first exception is what propagates to the awaiter. -/
def begin_consumption_task (ra : String → String → Option HandlerClass)
    (consumers : List ConsumerSpec) : GatherResult :=
  let results := consumers.map (create_consumption_task ra)
  ⟨results,
   results.findSome? (fun r =>
     match r with
     | Except.error e => some e
     | Except.ok _ => none)⟩

/-- A Python configuration value, with Python truthiness. -/
inductive PyVal where
  | none
  | bool (b : Bool)
  | int (n : Int)
  | str (s : String)
  deriving DecidableEq

/-- Python `bool(v)` for configuration values. -/
def PyVal.truthy : PyVal → Bool
  | PyVal.none => false
  | PyVal.bool b => b
  | PyVal.int n => decide (n ≠ 0)
  | PyVal.str s => decide (s ≠ "")

/-- One entry of a queue spec's `bindings` list. -/
structure Binding where
  exchange : String
  routing_key : String
  deriving DecidableEq

/-- One entry of the `queues` section of the YAML config; `none` models an
omitted key. -/
structure QueueSpec where
  queue : String
  durable : Option PyVal
  auto_delete : Option PyVal
  exclusive : Option PyVal
  x_dead_letter_exchange : Option PyVal
  x_dead_letter_routing_key : Option PyVal
  x_max_length : Option PyVal
  x_expires : Option PyVal
  x_message_ttl : Option PyVal
  x_queue_type : Option PyVal
  bindings : List Binding
  deriving DecidableEq

/-- Python `queue.get(queue_arg)` for the optional broker-argument keys
iterated by `create_queue`; `none` when the key is absent. -/
def QueueSpec.getArg (q : QueueSpec) : String → Option PyVal
  | "x_dead_letter_exchange" => q.x_dead_letter_exchange
  | "x_dead_letter_routing_key" => q.x_dead_letter_routing_key
  | "x_max_length" => q.x_max_length
  | "x_expires" => q.x_expires
  | "x_message_ttl" => q.x_message_ttl
  | "x_queue_type" => q.x_queue_type
  | _ => Option.none

/-- The `queue_args` list of `create_queue` (lines 94-101). -/
def queue_args : List String :=
  ["x_dead_letter_exchange", "x_dead_letter_routing_key", "x_max_length",
   "x_expires", "x_message_ttl", "x_queue_type"]

/-- `queue_arg.replace("_", "-")` (line 104). -/
def hyphenate (s : String) : String :=
  String.mk (s.data.map (fun c => if c = '_' then '-' else c))

/-- The `arguments` dict built by the loop of `create_queue`
(lines 103-106): each key of `queue_args` whose configured value is truthy
is stored under its hyphenated name. -/
def build_arguments (q : QueueSpec) : List (String × PyVal) :=
  queue_args.filterMap (fun a =>
    match q.getArg a with
    | some v => if v.truthy then some (hyphenate a, v) else Option.none
    | Option.none => Option.none)

/-- The declaration passed to `channel.declare_queue` (lines 108-115). -/
structure DeclaredQueue where
  name : String
  passive : Bool
  exclusive : Bool
  durable : Bool
  auto_delete : Bool
  arguments : List (String × PyVal)
  deriving DecidableEq

/-- `create_queue` (lines 82-125): `durable = bool(queue.get("durable",
True))`, `auto_delete = bool(queue.get("auto_delete", False))`,
`exclusive = bool(queue.get("exclusive", False))`, `passive = False`,
and the `arguments` dict above. -/
def create_queue (q : QueueSpec) : DeclaredQueue :=
  ⟨q.queue,
   false,
   (match q.exclusive with | some v => v.truthy | Option.none => false),
   (match q.durable with | some v => v.truthy | Option.none => true),
   (match q.auto_delete with | some v => v.truthy | Option.none => false),
   build_arguments q⟩

/-- Broker topology operations performed by queue setup. -/
inductive TopEv where
  | declare (d : DeclaredQueue)
  | bind (queueName exchange routing_key : String)
  deriving DecidableEq

/-- `bind_queue` (lines 128-140): one `created_queue.bind(exchange, key)`
per entry of the spec's `bindings`, in list order. -/
def bind_queue (created : DeclaredQueue) (spec : QueueSpec) : List TopEv :=
  spec.bindings.map (fun b => TopEv.bind created.name b.exchange b.routing_key)

/-- One iteration of the loop of `create_and_bind_queues` (lines 148-152):
declare the queue, record it in `created_queues[queue["queue"]]` (the dict
is modelled as a lookup function, a later spec with the same name
overwrites), then bind it. -/
def cabq_step (acc : List TopEv × (String → Option DeclaredQueue))
    (q : QueueSpec) : List TopEv × (String → Option DeclaredQueue) :=
  (acc.1 ++ (TopEv.declare (create_queue q) :: bind_queue (create_queue q) q),
   fun n => if n = q.queue then some (create_queue q) else acc.2 n)

/-- `create_and_bind_queues` (lines 143-154): fold the loop body over the
queue specs, returning the topology-operation trace and the
`created_queues` mapping. -/
def create_and_bind_queues (queues : List QueueSpec) :
    List TopEv × (String → Option DeclaredQueue) :=
  queues.foldl cabq_step ([], fun _ => Option.none)

/-- Behaviour where `consume` raises error 2, the proxy has not responded
and `shutdown` raises error 5. -/
def bC1x : Behavior := ⟨some 2, false, Option.none, false, some 5, Option.none⟩

/-- Behaviour where `consume` raises error 7, the proxy has not responded,
`shutdown` succeeds and `reject` raises error 3. -/
def bC1w : Behavior := ⟨some 7, false, Option.none, false, Option.none, some 3⟩

/-- Behaviour where `consume` succeeds and the proxy has not responded. -/
def bC3w : Behavior := ⟨Option.none, false, Option.none, false, Option.none, Option.none⟩

/-- Behaviour where `consume` raises error 1 and everything else
succeeds. -/
def bC5w : Behavior := ⟨some 1, true, Option.none, false, Option.none, Option.none⟩

/-- Behaviour where `consume` raises error 4 and `shutdown` raises
error 9. -/
def bC5x : Behavior := ⟨some 4, false, Option.none, false, some 9, Option.none⟩

example :
    consumption_coroutine bC3w =
      ([Ev.poolGet, Ev.wgAdd, Ev.consume, Ev.ack, Ev.poolPut, Ev.wgDone],
       Option.none) := by decide

example :
    consumption_coroutine bC1w =
      ([Ev.poolGet, Ev.wgAdd, Ev.consume, Ev.logErr, Ev.shutdown 7,
        Ev.reject true, Ev.logErr, Ev.poolPut, Ev.wgDone],
       Option.none) := by decide

example :
    consumption_coroutine bC1x =
      ([Ev.poolGet, Ev.wgAdd, Ev.consume, Ev.logErr, Ev.shutdown 2,
        Ev.poolPut, Ev.wgDone],
       some 5) := by decide

/-- C2: in every execution of the dispatch task, whatever the environment
does, the handler instance is taken from the pool exactly once and put
back exactly once, and the net effect of the trace on the pool size is
zero: no instance is lost or duplicated. -/
theorem c2_pool_conservation (b : Behavior) :
    countEv Ev.poolGet (consumption_coroutine b).1 = 1
    ∧ countEv Ev.poolPut (consumption_coroutine b).1 = 1
    ∧ ((consumption_coroutine b).1.map poolEffect).sum = 0 := by
  rcases b with ⟨ce, rac, ae, rfa, se, re⟩
  cases ce <;> cases ae <;> cases se <;> cases re <;> cases rac <;> cases rfa <;>
    simp [consumption_coroutine, tryBody, exceptBlock, respondedAtCatch,
      countEv, poolEffect]

/-- C3: when the handler's `consume` completes without raising, the
dispatch task issues `amqp_proxy.ack()` if and only if the proxy has not
already recorded a response; if the proxy has responded, no automatic
acknowledge is issued. -/
theorem c3_ack_iff_not_responded (b : Behavior)
    (hc : b.consumeErr = Option.none) :
    Ev.ack ∈ (consumption_coroutine b).1
      ↔ b.respondedAfterConsume = false := by
  rcases b with ⟨ce, rac, ae, rfa, se, re⟩
  cases ce with
  | none =>
    cases ae <;> cases se <;> cases re <;> cases rac <;> cases rfa <;>
      simp [consumption_coroutine, tryBody, exceptBlock, respondedAtCatch]
  | some e => exact absurd hc (by simp)

/-- Witness for C3: a run with a successful `consume` and an unresponded
proxy acknowledges the message. -/
theorem c3_ack_iff_not_responded_witness :
    Ev.ack ∈ (consumption_coroutine bC3w).1 :=
  (c3_ack_iff_not_responded bC3w rfl).mpr rfl

/-- C4: in every execution of the dispatch task the wait group is
incremented exactly once and decremented exactly once; the trace starts
with the pool acquisition, the increment and the handler invocation, in
that order, and ends with the pool release followed by the decrement, so
the increment precedes the handler's work and the decrement follows task
completion. -/
theorem c4_wait_group_balance (b : Behavior) :
    countEv Ev.wgAdd (consumption_coroutine b).1 = 1
    ∧ countEv Ev.wgDone (consumption_coroutine b).1 = 1
    ∧ (consumption_coroutine b).1.take 3 = [Ev.poolGet, Ev.wgAdd, Ev.consume]
    ∧ (consumption_coroutine b).1.drop ((consumption_coroutine b).1.length - 2)
        = [Ev.poolPut, Ev.wgDone] := by
  rcases b with ⟨ce, rac, ae, rfa, se, re⟩
  cases ce <;> cases ae <;> cases se <;> cases re <;> cases rac <;> cases rfa <;>
    simp [consumption_coroutine, tryBody, exceptBlock, respondedAtCatch, countEv]

/-- C1 counterexample: `consume` raises error 2, the proxy has not
recorded a response, and yet the message is never rejected, because
`shutdown` itself raises (error 5) inside the `except` block before the
reject is reached; `shutdown` is still invoked with the consume error. -/
theorem c1_reject_skipped_cex :
    bC1x.consumeErr = some 2
    ∧ bC1x.respondedAfterConsume = false
    ∧ countEv (Ev.reject true) (consumption_coroutine bC1x).1 = 0
    ∧ Ev.shutdown 2 ∈ (consumption_coroutine bC1x).1 := by decide

/-- C1 (amended): when the handler's `consume` raises, the task invokes
`handler.shutdown` with that exception; provided `shutdown` returns
without raising, the message is rejected with requeue=true exactly once
when the proxy has not recorded a response and never when it has, and no
exception escapes; when shutdown succeeds, the proxy has not responded and
the reject itself raises, the trace shows the single reject followed by
the error log and no further retry; if `shutdown` itself raises, the
reject is skipped. -/
theorem c1_consume_error_shutdown_reject (b : Behavior) (e : Nat)
    (hc : b.consumeErr = some e) :
    Ev.shutdown e ∈ (consumption_coroutine b).1
    ∧ (b.shutdownErr = Option.none →
        countEv (Ev.reject true) (consumption_coroutine b).1 =
          (if b.respondedAfterConsume then 0 else 1)
        ∧ (consumption_coroutine b).2 = Option.none)
    ∧ (b.shutdownErr = Option.none → b.respondedAfterConsume = false →
        ∀ r, b.rejectErr = some r →
        (consumption_coroutine b).1 =
          [Ev.poolGet, Ev.wgAdd, Ev.consume, Ev.logErr, Ev.shutdown e,
           Ev.reject true, Ev.logErr, Ev.poolPut, Ev.wgDone])
    ∧ (b.shutdownErr ≠ Option.none →
        countEv (Ev.reject true) (consumption_coroutine b).1 = 0) := by
  rcases b with ⟨ce, rac, ae, rfa, se, re⟩
  cases ce with
  | none => exact absurd hc (by simp)
  | some e0 =>
    obtain rfl : e0 = e := by simpa using hc
    cases ae <;> cases se <;> cases re <;> cases rac <;> cases rfa <;>
      simp [consumption_coroutine, tryBody, exceptBlock, respondedAtCatch,
        countEv]

/-- Witness for C1 (amended): `consume` raises error 7, `shutdown`
succeeds, the proxy has not responded and the reject raises; `shutdown`
receives error 7 and the reject is issued exactly once. -/
theorem c1_consume_error_shutdown_reject_witness :
    Ev.shutdown 7 ∈ (consumption_coroutine bC1w).1
    ∧ countEv (Ev.reject true) (consumption_coroutine bC1w).1 = 1 := by
  have h := c1_consume_error_shutdown_reject bC1w 7 rfl
  refine ⟨h.1, ?_⟩
  have h2 := (h.2.1 rfl).1
  simpa [bC1w] using h2

/-- C5 counterexample: `consume` raises error 4 with the proxy
unresponded, `shutdown` raises error 9, and that error escapes the
dispatch coroutine while the message is never rejected — the consumption
failure is not fully recovered locally for this behaviour of
`shutdown`. -/
theorem c5_escape_cex :
    bC5x.consumeErr = some 4
    ∧ (consumption_coroutine bC5x).2 = some 9
    ∧ countEv (Ev.reject true) (consumption_coroutine bC5x).1 = 0 := by decide

/-- C5 (amended): an exception raised by the handler's `consume` is
contained inside the dispatch task for any behaviour of the reject,
provided the handler's `shutdown` does not itself raise: no exception
escapes the coroutine. -/
theorem c5_containment (b : Behavior) (e : Nat)
    (hc : b.consumeErr = some e) (hs : b.shutdownErr = Option.none) :
    (consumption_coroutine b).2 = Option.none := by
  rcases b with ⟨ce, rac, ae, rfa, se, re⟩
  cases ce with
  | none => exact absurd hc (by simp)
  | some e0 =>
    cases se with
    | some e2 => exact absurd hs (by simp)
    | none =>
      cases ae <;> cases re <;> cases rac <;> cases rfa <;>
        simp [consumption_coroutine, tryBody, exceptBlock, respondedAtCatch]

/-- Witness for C5 (amended): with `consume` raising error 1 and
`shutdown` succeeding, nothing escapes the coroutine. -/
theorem c5_containment_witness :
    (consumption_coroutine bC5w).2 = Option.none :=
  c5_containment bC5w 1 rfl rfl

theorem splitOnColon_ne_nil (l : List Char) : splitOnColon l ≠ [] := by
  cases l with
  | nil => simp [splitOnColon]
  | cons c rest =>
    by_cases hc : c = ':'
    · simp [splitOnColon, hc]
    · simp only [splitOnColon, if_neg hc]
      cases splitOnColon rest <;> simp

theorem splitOnColon_length (l : List Char) :
    (splitOnColon l).length = colonCount l + 1 := by
  induction l with
  | nil => rfl
  | cons c rest ih =>
    by_cases hc : c = ':'
    · simp only [splitOnColon, if_pos hc, colonCount, List.length_cons, ih]
      omega
    · simp only [splitOnColon, if_neg hc, colonCount]
      cases hsp : splitOnColon rest with
      | nil => exact absurd hsp (splitOnColon_ne_nil rest)
      | cons p ps =>
        rw [hsp] at ih
        simp only [List.length_cons] at ih ⊢
        omega

/-- C10: handler-identifier resolution succeeds only for strings with
exactly one colon: whenever `load_module_object` returns a handler class
the identifier has exactly one colon, and for every identifier with zero
colons or more than one colon it raises (returns an error) for every
behaviour of the module/attribute resolver. -/
theorem c10_colon_split (ra : String → String → Option HandlerClass)
    (s : String) :
    ((∃ cls, load_module_object ra s = Except.ok cls) →
      colonCount s.data = 1)
    ∧ (colonCount s.data ≠ 1 →
      load_module_object ra s = Except.error ()) := by
  have hlen := splitOnColon_length s.data
  constructor
  · rintro ⟨cls, hok⟩
    rcases hsp : splitOnColon s.data with _ | ⟨m, _ | ⟨o, _ | ⟨x, rest⟩⟩⟩ <;>
      rw [hsp] at hlen <;>
      simp only [load_module_object, hsp] at hok <;>
      first
      | (exact absurd hok (by simp))
      | (simp at hlen; omega)
  · intro hne
    rcases hsp : splitOnColon s.data with _ | ⟨m, _ | ⟨o, _ | ⟨x, rest⟩⟩⟩ <;>
      rw [hsp] at hlen
    · simp only [load_module_object, hsp]
    · simp only [load_module_object, hsp]
    · simp at hlen
      exact absurd (by omega) hne
    · simp only [load_module_object, hsp]

/-- Resolver that knows exactly the attribute `H` of module `pkg`. -/
def raW : String → String → Option HandlerClass :=
  fun m o => if m = "pkg" then (if o = "H" then some ⟨"H"⟩ else Option.none)
             else Option.none

/-- Witness for C10: the identifier `pkg:H` resolves, and its colon count
is 1 as the theorem requires; the colon-free identifier `a.b` fails. -/
theorem c10_colon_split_witness :
    colonCount ("pkg:H").data = 1
    ∧ load_module_object raW "a.b" = Except.error () := by
  refine ⟨(c10_colon_split raW "pkg:H").1 ⟨⟨"H"⟩, rfl⟩,
          (c10_colon_split raW "a.b").2 (by decide)⟩

/-- C7: for every consumer spec whose handler loads, the setup produced by
`create_consumption_task` instantiates exactly `consumer_count` handler
instances, places them in a pool whose capacity is `consumer_count`, and
sets the consume channel's delivery quota to the spec's `prefetch_count`;
an omitted `prefetch_count` or `consumer_count` defaults to 1. -/
theorem c7_pool_and_qos (ra : String → String → Option HandlerClass)
    (spec : ConsumerSpec) (setup : DispatchSetup)
    (h : create_consumption_task ra spec = Except.ok setup) :
    setup.pool.length = spec.consumer_count.getD 1
    ∧ setup.pool_capacity = spec.consumer_count.getD 1
    ∧ setup.consume_qos = spec.prefetch_count.getD 1
    ∧ (spec.consumer_count = Option.none → setup.pool.length = 1)
    ∧ (spec.prefetch_count = Option.none → setup.consume_qos = 1) := by
  rcases hlm : load_module_object ra (spec.consumer.getD "") with e | cls <;>
    simp only [create_consumption_task, hlm] at h
  · cases h
  · cases h
    refine ⟨by simp, rfl, rfl, fun h0 => ?_, fun h0 => ?_⟩ <;> simp [h0]

/-- Spec for the witness of C7: pool size 3, everything else defaulted. -/
def specC7 : ConsumerSpec := ⟨"orders", some "pkg:H", Option.none, some 3⟩

/-- Witness for C7: a spec with `consumer_count` 3 and no
`prefetch_count` yields a pool of 3 instances with capacity 3 and a
delivery quota of 1. -/
theorem c7_pool_and_qos_witness :
    ((⟨"orders", 1, 3, List.replicate 3 ⟨"H"⟩⟩ : DispatchSetup)).pool.length = 3
    ∧ ((⟨"orders", 1, 3, List.replicate 3 ⟨"H"⟩⟩ : DispatchSetup)).consume_qos = 1 := by
  have h := c7_pool_and_qos raW specC7 ⟨"orders", 1, 3, List.replicate 3 ⟨"H"⟩⟩ rfl
  exact ⟨h.1, h.2.2.1⟩

/-- C6: in `begin_consumption_task` each consumer spec's outcome is
computed from that spec alone — the list of per-spec outcomes at position
`j` is exactly `create_consumption_task` of spec `j`, whatever happens to
the other specs — and whenever spec `j`'s own handler identifier loads,
its dispatch loop is set up (`Except.ok`) even if other specs fail:
a handler-load failure is fatal for its own consumer spec only. -/
theorem c6_load_failure_isolated (ra : String → String → Option HandlerClass)
    (cs : List ConsumerSpec) (j : Nat) (hj : j < cs.length)
    (cls : HandlerClass)
    (hok : load_module_object ra ((cs.get ⟨j, hj⟩).consumer.getD "")
             = Except.ok cls) :
    (begin_consumption_task ra cs).results.get? j
      = some (create_consumption_task ra (cs.get ⟨j, hj⟩))
    ∧ ∃ setup, (begin_consumption_task ra cs).results.get? j
        = some (Except.ok setup) := by
  have h1 : (begin_consumption_task ra cs).results.get? j
      = (cs.get? j).map (create_consumption_task ra) := by
    simp [begin_consumption_task]
  have h2 : cs.get? j = some (cs.get ⟨j, hj⟩) := List.get?_eq_get hj
  rw [h1, h2]
  refine ⟨rfl, ?_⟩
  refine ⟨⟨(cs.get ⟨j, hj⟩).queue, (cs.get ⟨j, hj⟩).prefetch_count.getD 1,
          (cs.get ⟨j, hj⟩).consumer_count.getD 1,
          List.replicate ((cs.get ⟨j, hj⟩).consumer_count.getD 1) cls⟩, ?_⟩
  simp at hok
  simp [create_consumption_task, hok]

/-- Consumer specs for the witness of C6: the first spec's handler
identifier has no colon and cannot load; the second loads fine. -/
def csC6 : List ConsumerSpec :=
  [⟨"q1", some "badidentifier", Option.none, Option.none⟩,
   ⟨"q2", some "pkg:H", Option.none, Option.none⟩]

/-- Witness for C6: with the first consumer spec's handler failing to
load, the second spec's dispatch loop is still set up. -/
theorem c6_load_failure_isolated_witness :
    ∃ setup, (begin_consumption_task raW csC6).results.get? 1
      = some (Except.ok setup) :=
  (c6_load_failure_isolated raW csC6 1 (by decide) ⟨"H"⟩ rfl).2

theorem hyphenate_inj_on_queue_args :
    ∀ a ∈ queue_args, ∀ b ∈ queue_args, hyphenate a = hyphenate b → a = b := by
  decide

/-- C9: each optional broker argument key is forwarded to the declaration
under its hyphenated name, paired with its configured value, if and only
if that value is truthy (so a falsy value such as 0 or the empty string is
omitted); and the declaration defaults are durable=true,
auto_delete=false, exclusive=false when those keys are omitted. -/
theorem c9_queue_arguments (q : QueueSpec) (a : String) (v : PyVal)
    (ha : a ∈ queue_args) :
    ((hyphenate a, v) ∈ (create_queue q).arguments
      ↔ (q.getArg a = some v ∧ v.truthy = true))
    ∧ (q.durable = Option.none → (create_queue q).durable = true)
    ∧ (q.auto_delete = Option.none → (create_queue q).auto_delete = false)
    ∧ (q.exclusive = Option.none → (create_queue q).exclusive = false) := by
  refine ⟨?_, fun h0 => by simp [create_queue, h0],
          fun h0 => by simp [create_queue, h0],
          fun h0 => by simp [create_queue, h0]⟩
  show (hyphenate a, v) ∈ build_arguments q ↔ _
  rw [build_arguments, List.mem_filterMap]
  constructor
  · rintro ⟨a2, ha2, hf⟩
    rcases hg : q.getArg a2 with _ | v2 <;> rw [hg] at hf
    · cases hf
    · by_cases ht : v2.truthy = true
      · simp only [ht, if_true] at hf
        obtain ⟨hh, rfl⟩ : hyphenate a2 = hyphenate a ∧ v2 = v := by
          simpa [Prod.ext_iff] using hf
        obtain rfl : a2 = a := hyphenate_inj_on_queue_args a2 ha2 a ha hh
        exact ⟨hg, ht⟩
      · simp [ht] at hf
  · rintro ⟨hg, ht⟩
    exact ⟨a, ha, by rw [hg]; simp [ht]⟩

/-- Queue spec for the witness of C9: a truthy `x_max_length`, a falsy
(zero) `x_expires`, and no explicit durability flags. -/
def qC9 : QueueSpec :=
  ⟨"work", Option.none, Option.none, Option.none, Option.none, Option.none,
   some (PyVal.int 5), some (PyVal.int 0), Option.none, Option.none, []⟩

/-- Witness for C9: the truthy `x_max_length` of 5 is forwarded under the
hyphenated key, the falsy `x_expires` of 0 is omitted, and the queue is
declared durable by default. -/
theorem c9_queue_arguments_witness :
    (hyphenate "x_max_length", PyVal.int 5) ∈ (create_queue qC9).arguments
    ∧ ¬ ((hyphenate "x_expires", PyVal.int 0) ∈ (create_queue qC9).arguments)
    ∧ (create_queue qC9).durable = true := by
  refine ⟨(c9_queue_arguments qC9 "x_max_length" (PyVal.int 5)
            (by decide)).1.mpr ⟨rfl, rfl⟩,
          fun hmem => ?_,
          (c9_queue_arguments qC9 "x_expires" (PyVal.int 0) (by decide)).2.1 rfl⟩
  have h := (c9_queue_arguments qC9 "x_expires" (PyVal.int 0)
              (by decide)).1.mp hmem
  exact absurd h.2 (by decide)

theorem cabq_trace_aux (qs : List QueueSpec)
    (acc : List TopEv × (String → Option DeclaredQueue)) :
    (qs.foldl cabq_step acc).1 =
      acc.1 ++ (qs.map (fun q =>
        TopEv.declare (create_queue q) :: bind_queue (create_queue q) q)).flatten := by
  induction qs generalizing acc with
  | nil => simp
  | cons q rest ih =>
    rw [List.foldl_cons, ih]
    simp [cabq_step]

theorem cabq_map_preserve (qs : List QueueSpec)
    (acc : List TopEv × (String → Option DeclaredQueue)) (n : String)
    (hn : n ∉ qs.map (fun q => q.queue)) :
    (qs.foldl cabq_step acc).2 n = acc.2 n := by
  induction qs generalizing acc with
  | nil => rfl
  | cons q rest ih =>
    simp only [List.map_cons, List.mem_cons] at hn
    push_neg at hn
    rw [List.foldl_cons, ih _ hn.2]
    simp [cabq_step, hn.1]

theorem cabq_lookup_aux (qs : List QueueSpec)
    (acc : List TopEv × (String → Option DeclaredQueue))
    (hnd : (qs.map (fun q => q.queue)).Nodup) (q : QueueSpec) (hq : q ∈ qs) :
    (qs.foldl cabq_step acc).2 q.queue = some (create_queue q) := by
  induction qs generalizing acc with
  | nil => cases hq
  | cons q0 rest ih =>
    rw [List.map_cons, List.nodup_cons] at hnd
    rcases List.mem_cons.mp hq with rfl | hq2
    · rw [List.foldl_cons, cabq_map_preserve rest _ q.queue hnd.1]
      simp [cabq_step]
    · rw [List.foldl_cons]
      exact ih _ hnd.2 hq2

/-- C8 (amended): `create_and_bind_queues` declares every queue
non-passively; the topology trace is, queue by queue in specification
order, the owning queue's declaration followed by its bindings in
specification order; and, whenever the queue names are distinct, the
returned mapping sends every spec's name to that spec's declared queue
(with duplicate names, a later spec's declaration overwrites an earlier
one under the shared name). -/
theorem c8_declare_bind (qs : List QueueSpec) :
    (∀ d, TopEv.declare d ∈ (create_and_bind_queues qs).1 → d.passive = false)
    ∧ (create_and_bind_queues qs).1 =
        (qs.map (fun q =>
          TopEv.declare (create_queue q) :: bind_queue (create_queue q) q)).flatten
    ∧ ((qs.map (fun q => q.queue)).Nodup →
        ∀ q ∈ qs, (create_and_bind_queues qs).2 q.queue = some (create_queue q)) := by
  have htr := cabq_trace_aux qs ([], fun _ => Option.none)
  refine ⟨?_, htr, fun hnd q hq => cabq_lookup_aux qs _ hnd q hq⟩
  intro d hd
  rw [create_and_bind_queues, htr] at hd
  simp only [List.nil_append, List.mem_flatten, List.mem_map] at hd
  obtain ⟨l, ⟨q, hq, rfl⟩, hdl⟩ := hd
  rcases List.mem_cons.mp hdl with hdecl | hbind
  · obtain rfl : d = create_queue q := by
      injection hdecl.symm with h
      exact h.symm
    rfl
  · exact absurd hbind (by simp [bind_queue])

/-- First queue spec of the C8 witness: the `orders` queue with one
binding. -/
def qW1 : QueueSpec :=
  ⟨"orders", some (PyVal.bool true), Option.none, Option.none, Option.none,
   Option.none, Option.none, Option.none, Option.none, Option.none,
   [⟨"orders-x", "created"⟩]⟩

/-- Second queue spec of the C8 witness: the `audit` queue, no
bindings. -/
def qW2 : QueueSpec :=
  ⟨"audit", Option.none, Option.none, Option.none, Option.none, Option.none,
   Option.none, Option.none, Option.none, Option.none, []⟩

/-- Witness for C8 (amended): with two distinct queue names, the mapping
holds the first declared queue under its name, and that declaration is
non-passive. -/
theorem c8_declare_bind_witness :
    (create_and_bind_queues [qW1, qW2]).2 qW1.queue = some (create_queue qW1)
    ∧ (create_queue qW1).passive = false := by
  refine ⟨(c8_declare_bind [qW1, qW2]).2.2 (by decide) qW1 (by decide), ?_⟩
  exact (c8_declare_bind [qW1, qW2]).1 (create_queue qW1) (by decide)

/-- First queue spec of the C8 counterexample: name `a`, durable. -/
def qX1 : QueueSpec :=
  ⟨"a", some (PyVal.bool true), Option.none, Option.none, Option.none,
   Option.none, Option.none, Option.none, Option.none, Option.none, []⟩

/-- Second queue spec of the C8 counterexample: the same name `a`,
non-durable. -/
def qX2 : QueueSpec :=
  ⟨"a", some (PyVal.bool false), Option.none, Option.none, Option.none,
   Option.none, Option.none, Option.none, Option.none, Option.none, []⟩

/-- C8 counterexample: with two queue specs sharing the name `a`, the
returned mapping does not contain the first declared queue — the second
declaration overwrote it under the shared key — so the mapping does not
contain every declared queue. -/
theorem c8_duplicate_name_cex :
    (create_and_bind_queues [qX1, qX2]).2 qX1.queue ≠ some (create_queue qX1)
    ∧ (create_and_bind_queues [qX1, qX2]).2 qX1.queue
        = some (create_queue qX2) := by
  constructor
  · intro h
    have : create_queue qX1 = create_queue qX2 := by
      have h2 : (create_and_bind_queues [qX1, qX2]).2 qX1.queue
          = some (create_queue qX2) := by decide
      rw [h] at h2
      exact Option.some.inj h2
    exact absurd this (by decide)
  · decide
